import Mathlib

/-!
Verification of the SLE cardiovascular risk calculator (`app.py`).

The program is a single-page clinical calculator: it encodes ten patient
attributes into a fixed-order feature vector, asks a pre-trained survival
model for a survival function (paired time / probability sequences),
picks the time nearest to 5 years (1826.25 days) by minimal absolute
difference (numpy `argmin`, which returns the first index attaining the
minimum), derives `risk_5y = (1 - survival_5y) * 100`, and classifies it
into LOW / MEDIUM / HIGH.

Embedding conventions: real-number arithmetic is modelled over `ℚ`
(every constant in the source — 87.8, 365.25, 5, 10, 100 — is a decimal
literal, exact in `ℚ`); numpy arrays become `List ℚ`; the model handle
becomes a function from feature vectors to `Except String SurvFunc`,
mirroring `model.predict_survival_function`, which may raise; Streamlit
rendering is abstracted to the data it displays.
-/

set_option autoImplicit false

/-- Sex as offered by the radio widget: "Female" or "Male". -/
inductive Sex where
  | female : Sex
  | male : Sex
deriving DecidableEq, Repr

/-- The ten inputs collected by the form (sliders / radio / checkboxes):
age 18-90, sex, and eight booleans. -/
structure PatientRecord where
  age : ℕ
  sex : Sex
  hta : Bool
  diabetes : Bool
  dyslipidemia : Bool
  obesity : Bool
  smoking : Bool
  apl : Bool
  cutaneous : Bool
  joint : Bool
deriving DecidableEq, Repr

/-- The slider constrains age to the closed interval [18, 90]. -/
def validRecord (r : PatientRecord) : Prop :=
  18 ≤ r.age ∧ r.age ≤ 90

/-- Line 145: `sex_binary = 1 if sex == "Male" else 0`. -/
def sex_binary (s : Sex) : ℚ :=
  if s = Sex.male then 1 else 0

/-- Line 146: `age_normalized = age / 87.8`. -/
def age_normalized (age : ℕ) : ℚ :=
  (age : ℚ) / (878 / 10)

/-- Python `int(b)` applied to a checkbox boolean. -/
def boolInt (b : Bool) : ℚ :=
  if b then 1 else 0

/-- Lines 149-160: the single row of the `np.array` passed to the model,
in source order. -/
def features (r : PatientRecord) : List ℚ :=
  [ sex_binary r.sex
  , age_normalized r.age
  , boolInt r.hta
  , boolInt r.diabetes
  , boolInt r.dyslipidemia
  , boolInt r.obesity
  , boolInt r.smoking
  , boolInt r.apl
  , boolInt r.cutaneous
  , boolInt r.joint ]

/-- `np.argmin` over a one-dimensional array: the first (lowest) index at
which the minimum value occurs; numpy scans left to right and replaces
the running minimum only on a strictly smaller value.  Modelled
structurally: the head wins ties against the tail. -/
def argminIdx : List ℚ → ℕ
  | [] => 0
  | [_] => 0
  | x :: y :: ys =>
    if (y :: ys).getD (argminIdx (y :: ys)) 0 < x then argminIdx (y :: ys) + 1 else 0

/-- The survival function returned for the single row:
`surv_funcs[0].x` (times) and `surv_funcs[0].y` (probabilities). -/
structure SurvFunc where
  x : List ℚ
  y : List ℚ
deriving DecidableEq, Repr

/-- Line 179: `five_years = 5 * 365.25`. -/
def five_years : ℚ := 5 * (36525 / 100)

/-- Line 180: `idx_5y = np.abs(times - five_years).argmin()`. -/
def idx_5y (sf : SurvFunc) : ℕ :=
  argminIdx (sf.x.map (fun t => |t - five_years|))

/-- Line 181: `survival_5y = survival_probs[idx_5y]`. -/
def survival_5y (sf : SurvFunc) : ℚ :=
  sf.y.getD (idx_5y sf) 0

/-- Line 182: `risk_5y = (1 - survival_5y) * 100`.  Modelled over exact
`ℚ`; the program evaluates this in IEEE-754 float64, where the rounding
of the multiplication can land just below an exact-arithmetic value: at
survival probability 0.9 the float64 result is 9.999999999999998 rather
than 10, which matters exactly at the category boundary below. -/
def risk_5y (sf : SurvFunc) : ℚ :=
  (1 - survival_5y sf) * 100

/-- Lines 189-200: the if / elif / else ladder assigning `risk_category`. -/
def risk_category (r : ℚ) : String :=
  if r < 5 then "LOW"
  else if r < 10 then "MEDIUM"
  else "HIGH"

/-- The pair displayed in the result box: `risk_5y` and `risk_category`. -/
structure RiskResult where
  riskPct : ℚ
  category : String
deriving DecidableEq, Repr

/-- The data interpolated into the `summary` f-string (lines 283-304):
the generation timestamp, the ten input widget values of this run, and
the `risk_5y` / `risk_category` computed in the same run.  The plain-text
formatting around these values is fixed boilerplate; the document is
modelled by its variable content. -/
structure ExportDoc where
  timestamp : String
  age : ℕ
  sex : Sex
  hta : Bool
  diabetes : Bool
  dyslipidemia : Bool
  obesity : Bool
  smoking : Bool
  apl : Bool
  cutaneous : Bool
  joint : Bool
  riskPct : ℚ
  category : String
deriving DecidableEq, Repr

/-- Build the export document from the current run's locals, exactly the
values the f-string interpolates. -/
def makeExport (t : String) (rec : PatientRecord) (risk : ℚ) (cat : String) : ExportDoc :=
  ⟨t, rec.age, rec.sex, rec.hta, rec.diabetes, rec.dyslipidemia, rec.obesity,
    rec.smoking, rec.apl, rec.cutaneous, rec.joint, risk, cat⟩

/-- The loaded model handle: `model.predict_survival_function` applied to
the single feature row, which may raise (modelled as `Except`). -/
def Model : Type := List ℚ → Except String SurvFunc

/-- What the calculate branch (lines 143-316) leaves on the page. -/
inductive CalcOutcome where
  | shown : RiskResult → ExportDoc → CalcOutcome
  | errorShown : String → CalcOutcome
  | uncaughtException : String → CalcOutcome
deriving DecidableEq

/-- Lines 143-316, the body run when the Calculate button was clicked.
The encoding stage (lines 144-170, building `features` and the
DataFrame) runs BEFORE the `try` block, so its result enters as an
`Except` value: `.ok fv` when it completes (in the program it is always
`.ok (features rec)`), `.error e` standing for an exception raised
there.  The `try` block (lines 173-312) covers prediction through
display and export; its fallibility is carried by the model call.  The
`except` clause (lines 314-316) turns an exception from the `try` block
into `st.error("Error during prediction: " + str(e))`; an exception from
the encoding stage is outside the `try` and propagates out of the
branch. -/
def calculateBranch (enc : Except String (List ℚ)) (predict : Model)
    (t : String) (rec : PatientRecord) : CalcOutcome :=
  match enc with
  | Except.error e => CalcOutcome.uncaughtException e
  | Except.ok fv =>
    match predict fv with
    | Except.error e => CalcOutcome.errorShown ("Error during prediction: " ++ e)
    | Except.ok sf =>
      CalcOutcome.shown ⟨risk_5y sf, risk_category (risk_5y sf)⟩
        (makeExport t rec (risk_5y sf) (risk_category (risk_5y sf)))

/-- Lines 68-75: `load_model` tries `joblib.load('model.pkl')`; on any
exception it shows an error and returns `None`.  The deserialization
attempt enters as an `Except` value. -/
def load_model (attempt : Except String Model) : Option Model :=
  match attempt with
  | Except.ok m => some m
  | Except.error _ => none

/-- The page state relevant to the claims: whether the "Model not
loaded" warning of line 319 is shown, and the outcome of the calculate
branch (`none` when the calculator path is disabled or the button was
not clicked). -/
structure AppView where
  warningShown : Bool
  calcOutcome : Option CalcOutcome

/-- Lines 113-319: if `model is not None` the form and the calculate
branch run (with the encoding stage succeeding, as it does in the
program); otherwise only the warning is rendered. -/
def runApp (attempt : Except String Model) (clicked : Bool)
    (rec : PatientRecord) (t : String) : AppView :=
  match load_model attempt with
  | none => ⟨true, none⟩
  | some m =>
    ⟨false, if clicked then some (calculateBranch (Except.ok (features rec)) m t rec) else none⟩

/-- The stub survival function of the spec's boundary test:
times = [0, 1826.25, 3652.5], probs = [1.0, 0.9, 0.8]. -/
def stubSF : SurvFunc :=
  ⟨[0, 182625 / 100, 36525 / 10], [1, 9 / 10, 8 / 10]⟩

/-- A stub model returning `stubSF` for every feature row. -/
def stubPredict : Model := fun _ => Except.ok stubSF

/-- The export document offered by one evaluation of `rec` (present
exactly when the run reached the download button). -/
def exportOf (predict : Model) (t : String) (rec : PatientRecord) : Option ExportDoc :=
  match calculateBranch (Except.ok (features rec)) predict t rec with
  | CalcOutcome.shown _ doc => some doc
  | _ => none

/-- A session is a sequence of Calculate clicks; each rerun rebuilds the
page from scratch (no state survives a rerun except the cached model),
so the export offered after the last click is the last record's. -/
def sessionLastExport (predict : Model) (t : String)
    (recs : List PatientRecord) : Option ExportDoc :=
  match recs.getLast? with
  | none => none
  | some rec => exportOf predict t rec

/-- The state an evaluation can read: the cached model handle and the
current form values. -/
structure EvalState where
  model : Model
  record : PatientRecord

/-- One evaluation as a state transformer: it returns the (unchanged)
state together with the page outcome, mirroring that the calculate
branch only reads `model` and the widget values. -/
def evaluateStep (s : EvalState) (t : String) : EvalState × CalcOutcome :=
  (s, calculateBranch (Except.ok (features s.record)) s.model t s.record)

/-! ### Properties of `argminIdx` (numpy `argmin` semantics) -/

theorem argminIdx_lt_length : ∀ (l : List ℚ), l ≠ [] → argminIdx l < l.length
  | [], h => absurd rfl h
  | [_], _ => by simp [argminIdx]
  | x :: y :: ys, _ => by
    have ih := argminIdx_lt_length (y :: ys) (List.cons_ne_nil y ys)
    by_cases c : (y :: ys).getD (argminIdx (y :: ys)) 0 < x
    · simp only [argminIdx, if_pos c, List.length_cons]
      exact Nat.succ_lt_succ ih
    · simp only [argminIdx, if_neg c, List.length_cons]
      exact Nat.succ_pos _

theorem argminIdx_min : ∀ (l : List ℚ) (j : ℕ), j < l.length →
    l.getD (argminIdx l) 0 ≤ l.getD j 0
  | [], j, h => by simp at h
  | [x], j, h => by
    have hj : j = 0 := Nat.lt_one_iff.mp (by simpa using h)
    subst hj
    simp [argminIdx]
  | x :: y :: ys, j, h => by
    by_cases c : (y :: ys).getD (argminIdx (y :: ys)) 0 < x
    · simp only [argminIdx, if_pos c]
      rw [List.getD_cons_succ]
      match j with
      | 0 => rw [List.getD_cons_zero]; exact le_of_lt c
      | k + 1 =>
        rw [List.getD_cons_succ]
        exact argminIdx_min (y :: ys) k (Nat.lt_of_succ_lt_succ (by simpa using h))
    · simp only [argminIdx, if_neg c]
      rw [List.getD_cons_zero]
      match j with
      | 0 => rw [List.getD_cons_zero]
      | k + 1 =>
        rw [List.getD_cons_succ]
        exact le_trans (le_of_not_lt c)
          (argminIdx_min (y :: ys) k (Nat.lt_of_succ_lt_succ (by simpa using h)))

theorem argminIdx_first : ∀ (l : List ℚ) (j : ℕ), j < argminIdx l →
    l.getD (argminIdx l) 0 < l.getD j 0
  | [], j, h => by simp [argminIdx] at h
  | [x], j, h => by simp [argminIdx] at h
  | x :: y :: ys, j, h => by
    by_cases c : (y :: ys).getD (argminIdx (y :: ys)) 0 < x
    · simp only [argminIdx, if_pos c] at h ⊢
      rw [List.getD_cons_succ]
      match j, h with
      | 0, _ => rw [List.getD_cons_zero]; exact c
      | k + 1, h =>
        rw [List.getD_cons_succ]
        exact argminIdx_first (y :: ys) k (Nat.lt_of_succ_lt_succ h)
    · simp only [argminIdx, if_neg c] at h
      exact absurd h (Nat.not_lt_zero j)

theorem getD_map_lt (f : ℚ → ℚ) (l : List ℚ) (n : ℕ) (hn : n < l.length) :
    (l.map f).getD n 0 = f (l.getD n 0) := by
  rw [List.getD_eq_getElem?_getD, List.getD_eq_getElem?_getD, List.getElem?_map,
    List.getElem?_eq_getElem hn]
  rfl

/-! ### Claim theorems -/

/-- C1: for every valid PatientRecord (age 18-90, sex in {female, male},
eight booleans), the encoded feature vector has exactly 10 elements in
the fixed order [sex_is_male, age/87.8, hypertension, diabetes,
dyslipidemia, obesity, smoking, apl, cutaneous, joint], sex mapping
male to 1 and female to 0, age divided by 87.8, booleans mapping true
to 1 and false to 0; every entry is 0, 1, or the normalized age. -/
theorem C1_feature_vector (r : PatientRecord) (h : validRecord r) :
    (features r).length = 10 ∧
    features r =
      [ if r.sex = Sex.male then (1 : ℚ) else 0
      , (r.age : ℚ) / (878 / 10)
      , if r.hta then (1 : ℚ) else 0
      , if r.diabetes then (1 : ℚ) else 0
      , if r.dyslipidemia then (1 : ℚ) else 0
      , if r.obesity then (1 : ℚ) else 0
      , if r.smoking then (1 : ℚ) else 0
      , if r.apl then (1 : ℚ) else 0
      , if r.cutaneous then (1 : ℚ) else 0
      , if r.joint then (1 : ℚ) else 0 ] ∧
    ∀ v ∈ features r, v = 0 ∨ v = 1 ∨ v = (r.age : ℚ) / (878 / 10) := by
  refine ⟨rfl, rfl, ?_⟩
  intro v hv
  simp only [features, List.mem_cons, List.not_mem_nil, or_false] at hv
  rcases hv with rfl | rfl | rfl | rfl | rfl | rfl | rfl | rfl | rfl | rfl
  · cases r.sex <;> simp [sex_binary]
  · right; right; rfl
  · cases r.hta <;> simp [boolInt]
  · cases r.diabetes <;> simp [boolInt]
  · cases r.dyslipidemia <;> simp [boolInt]
  · cases r.obesity <;> simp [boolInt]
  · cases r.smoking <;> simp [boolInt]
  · cases r.apl <;> simp [boolInt]
  · cases r.cutaneous <;> simp [boolInt]
  · cases r.joint <;> simp [boolInt]

/-- A concrete valid record for instantiating the claim theorems. -/
def rec0 : PatientRecord :=
  ⟨35, Sex.male, true, false, false, false, false, false, false, false⟩

/-- C1 at the concrete record rec0 (age 35, male, hypertension only). -/
theorem C1_feature_vector_witness :
    validRecord rec0 ∧ (features rec0).length = 10 :=
  ⟨by constructor <;> norm_num [rec0, validRecord],
   (C1_feature_vector rec0 (by constructor <;> norm_num [rec0, validRecord])).1⟩

/-- C2: for a nonempty time sequence, the evaluator's index is in
bounds, its time has minimal absolute difference to 1826.25 days
(five_years) among all times, and it is the lowest such index (every
earlier index is strictly farther), so the choice is deterministic. -/
theorem C2_nearest_time_index (sf : SurvFunc) (h : sf.x ≠ []) :
    idx_5y sf < sf.x.length ∧
    (∀ j, j < sf.x.length →
      |sf.x.getD (idx_5y sf) 0 - five_years| ≤ |sf.x.getD j 0 - five_years|) ∧
    ∀ j, j < idx_5y sf →
      |sf.x.getD (idx_5y sf) 0 - five_years| < |sf.x.getD j 0 - five_years| := by
  unfold idx_5y
  have hm : sf.x.map (fun t => |t - five_years|) ≠ [] := by simpa using h
  have hidx : argminIdx (sf.x.map (fun t => |t - five_years|)) < sf.x.length := by
    have h1 := argminIdx_lt_length _ hm
    rwa [List.length_map] at h1
  refine ⟨hidx, ?_, ?_⟩
  · intro j hj
    have h1 := argminIdx_min (sf.x.map (fun t => |t - five_years|)) j
      (by rwa [List.length_map])
    rwa [getD_map_lt _ _ _ hidx, getD_map_lt _ _ _ hj] at h1
  · intro j hj
    have hjlen : j < sf.x.length := lt_trans hj hidx
    have h1 := argminIdx_first (sf.x.map (fun t => |t - five_years|)) j hj
    rwa [getD_map_lt _ _ _ hidx, getD_map_lt _ _ _ hjlen] at h1

/-- C2 at the stub survival function: its time list is nonempty and the
selected index is in bounds. -/
theorem C2_nearest_time_index_witness :
    stubSF.x ≠ [] ∧ idx_5y stubSF < stubSF.x.length :=
  ⟨by simp [stubSF], (C2_nearest_time_index stubSF (by simp [stubSF])).1⟩

/-- C3: the risk category is a pure function of the risk percentage with
r < 5 LOW, 5 ≤ r < 10 MEDIUM, r ≥ 10 HIGH, and the boundary values
4.999, 5.0, 9.999, 10.0 classify as LOW, MEDIUM, MEDIUM, HIGH. -/
theorem C3_category_thresholds :
    (∀ r : ℚ, r < 5 → risk_category r = "LOW") ∧
    (∀ r : ℚ, 5 ≤ r → r < 10 → risk_category r = "MEDIUM") ∧
    (∀ r : ℚ, 10 ≤ r → risk_category r = "HIGH") ∧
    risk_category (4999 / 1000) = "LOW" ∧
    risk_category 5 = "MEDIUM" ∧
    risk_category (9999 / 1000) = "MEDIUM" ∧
    risk_category 10 = "HIGH" := by
  refine ⟨?_, ?_, ?_, ?_, ?_, ?_, ?_⟩
  · intro r hr
    rw [risk_category, if_pos hr]
  · intro r h5 h10
    rw [risk_category, if_neg (not_lt.mpr h5), if_pos h10]
  · intro r h10
    rw [risk_category, if_neg (not_lt.mpr (le_trans (by norm_num) h10)),
      if_neg (not_lt.mpr h10)]
  · norm_num [risk_category]
  · norm_num [risk_category]
  · norm_num [risk_category]
  · norm_num [risk_category]

/-- C3 at the concrete percentage 3: LOW. -/
theorem C3_category_thresholds_witness : risk_category 3 = "LOW" :=
  C3_category_thresholds.1 3 (by norm_num)

/-- C10: when the time sequence is nonempty and the probability sequence
has the same length, the nearest-time index is within bounds of both
sequences, and reading the survival probability at it succeeds (the
optional lookup returns exactly the value the evaluator uses). -/
theorem C10_index_safety (sf : SurvFunc) (hx : sf.x ≠ [])
    (hlen : sf.x.length = sf.y.length) :
    idx_5y sf < sf.x.length ∧ idx_5y sf < sf.y.length ∧
    sf.y[idx_5y sf]? = some (survival_5y sf) := by
  have hm : sf.x.map (fun t => |t - five_years|) ≠ [] := by simpa using hx
  have hidx : idx_5y sf < sf.x.length := by
    have h1 := argminIdx_lt_length _ hm
    rwa [List.length_map] at h1
  have hy : idx_5y sf < sf.y.length := hlen ▸ hidx
  refine ⟨hidx, hy, ?_⟩
  rw [survival_5y, List.getD_eq_getElem?_getD, List.getElem?_eq_getElem hy]
  rfl

/-- C10 at the stub survival function: hypotheses hold and the selected
index is in bounds of the probability sequence. -/
theorem C10_index_safety_witness :
    stubSF.x ≠ [] ∧ stubSF.x.length = stubSF.y.length ∧
    idx_5y stubSF < stubSF.y.length :=
  ⟨by simp [stubSF], by simp [stubSF],
   (C10_index_safety stubSF (by simp [stubSF]) (by simp [stubSF])).2.1⟩

/-- True exactly when the outcome is the inline error message produced
by the except clause. -/
def isErrorShown : CalcOutcome → Bool
  | CalcOutcome.errorShown _ => true
  | _ => false

/-- True exactly when an exception escapes the calculate branch. -/
def isUncaught : CalcOutcome → Bool
  | CalcOutcome.uncaughtException _ => true
  | _ => false

/-- A model whose invocation always raises. -/
def failPredict : Model := fun _ => Except.error "bad input"

/-- C4 as stated is false: an exception raised in the encoding stage
(before the try block) is not surfaced as a user-visible error message;
it escapes the calculate branch uncaught. -/
theorem C4_encoding_uncaught_counterexample :
    isErrorShown (calculateBranch (Except.error "boom") stubPredict "2024-01-01" rec0)
      = false ∧
    isUncaught (calculateBranch (Except.error "boom") stubPredict "2024-01-01" rec0)
      = true := by
  exact ⟨rfl, rfl⟩

/-- C4 (amended): any exception raised during model invocation or the
subsequent result rendering (the try block) is caught and surfaced as a
user-visible message, so once encoding has completed no error escapes
the branch; the encoding stage itself runs before the try block, and an
exception there would propagate uncaught. -/
theorem C4_try_scope (predict : Model) (t : String) (rec : PatientRecord) :
    (∀ e, predict (features rec) = Except.error e →
      calculateBranch (Except.ok (features rec)) predict t rec =
        CalcOutcome.errorShown ("Error during prediction: " ++ e)) ∧
    isUncaught (calculateBranch (Except.ok (features rec)) predict t rec) = false ∧
    ∀ e, isErrorShown (calculateBranch (Except.error e) predict t rec) = false := by
  refine ⟨?_, ?_, ?_⟩
  · intro e he
    simp [calculateBranch, he]
  · rcases hp : predict (features rec) with e | sf <;>
      simp [calculateBranch, hp, isUncaught]
  · intro e
    rfl

/-- C4 amended claim at a concrete always-raising model: the inline
error message is shown. -/
theorem C4_try_scope_witness :
    failPredict (features rec0) = Except.error "bad input" ∧
    calculateBranch (Except.ok (features rec0)) failPredict "2024-01-01" rec0 =
      CalcOutcome.errorShown ("Error during prediction: " ++ "bad input") :=
  ⟨rfl, (C4_try_scope failPredict "2024-01-01" rec0).1 "bad input" rfl⟩

/-- C5: when loading the model artifact fails, the loader returns none,
the warning is rendered, and the calculate branch never runs (whether or
not the button is clicked); the app still produces a page. -/
theorem C5_load_failure (e : String) (clicked : Bool) (rec : PatientRecord) (t : String) :
    load_model (Except.error e) = none ∧
    (runApp (Except.error e) clicked rec t).warningShown = true ∧
    (runApp (Except.error e) clicked rec t).calcOutcome = none :=
  ⟨rfl, rfl, rfl⟩

/-- C5 at a concrete failing load with the button clicked. -/
theorem C5_load_failure_witness :
    (runApp (Except.error "model.pkl missing") true rec0 "2024-01-01").calcOutcome
      = none :=
  (C5_load_failure "model.pkl missing" true rec0 "2024-01-01").2.2

/-- C6: risk_5y is (1 - survival_5y) * 100 with no clamping: it lies in
[0, 100] exactly when the survival probability lies in [0, 1], and an
out-of-range probability passes through (negative survival gives risk
above 100, survival above 1 gives negative risk). -/
theorem C6_no_clamping (sf : SurvFunc) :
    risk_5y sf = (1 - survival_5y sf) * 100 ∧
    ((0 ≤ risk_5y sf ∧ risk_5y sf ≤ 100) ↔
      (0 ≤ survival_5y sf ∧ survival_5y sf ≤ 1)) ∧
    (survival_5y sf < 0 → 100 < risk_5y sf) ∧
    (1 < survival_5y sf → risk_5y sf < 0) := by
  have hdef : risk_5y sf = (1 - survival_5y sf) * 100 := rfl
  refine ⟨hdef, ?_, ?_, ?_⟩
  · rw [hdef]
    constructor
    · rintro ⟨h1, h2⟩
      constructor <;> linarith
    · rintro ⟨h1, h2⟩
      constructor <;> linarith
  · intro h
    rw [hdef]
    linarith
  · intro h
    rw [hdef]
    linarith

/-- A malformed survival function whose probability is negative. -/
def badSF : SurvFunc := ⟨[0], [-(1 / 2)]⟩

/-- C6 at the malformed survival function: the negative probability is
passed through, producing a risk above 100. -/
theorem C6_no_clamping_witness :
    survival_5y badSF < 0 ∧ 100 < risk_5y badSF :=
  ⟨by norm_num [survival_5y, idx_5y, argminIdx, badSF],
   (C6_no_clamping badSF).2.2.1
     (by norm_num [survival_5y, idx_5y, argminIdx, badSF])⟩

/-- C7, evaluated at the failing input: with the stub model (times
[0, 1826.25, 3652.5], probabilities [1.0, 0.9, 0.8]) the intended
value of the computation is exactly 10 for every patient record — the
nearest time is 1826.25 itself, the survival probability there is 0.9,
and (1 - 0.9) * 100 = 10, which the documented rule (10.0 itself is
HIGH) classifies HIGH, as this theorem establishes over exact
arithmetic.  The program misses this by a rounding slip: in float64,
`(1 - 0.9) * 100` at line 182 evaluates to 9.999999999999998, so the
`elif risk_5y < 10` branch fires and the program labels this stub
MEDIUM while the `.1f` display still reads "10.0%" — the page shows
"10.0%" with a MEDIUM label, contradicting the stated boundary rule. -/
theorem C7_stub_boundary (rec : PatientRecord) (t : String) :
    calculateBranch (Except.ok (features rec)) stubPredict t rec =
      CalcOutcome.shown ⟨10, "HIGH"⟩ (makeExport t rec 10 "HIGH") := by
  have h10 : risk_5y stubSF = 10 := by
    norm_num [risk_5y, survival_5y, idx_5y, argminIdx, five_years,
      abs_eq_max_neg, stubSF]
  have hcat : risk_category (risk_5y stubSF) = "HIGH" := by
    rw [h10]
    norm_num [risk_category]
  show CalcOutcome.shown ⟨risk_5y stubSF, risk_category (risk_5y stubSF)⟩
      (makeExport t rec (risk_5y stubSF) (risk_category (risk_5y stubSF))) =
    CalcOutcome.shown ⟨10, "HIGH"⟩ (makeExport t rec 10 "HIGH")
  rw [hcat, h10]

/-- C7 exact-arithmetic evaluation at the concrete record rec0. -/
theorem C7_stub_boundary_witness :
    calculateBranch (Except.ok (features rec0)) stubPredict "2024-01-01" rec0 =
      CalcOutcome.shown ⟨10, "HIGH"⟩ (makeExport "2024-01-01" rec0 10 "HIGH") :=
  C7_stub_boundary rec0 "2024-01-01"

/-- C8: when evaluation succeeds, the export document holds exactly the
ten inputs of that evaluation together with the risk and category
computed from them and the generation timestamp; and after any sequence
of prior evaluations, the last export is determined by the most recent
record alone. -/
theorem C8_export_fresh (predict : Model) (t : String) (rec : PatientRecord)
    (sf : SurvFunc) (h : predict (features rec) = Except.ok sf) :
    exportOf predict t rec =
      some ⟨t, rec.age, rec.sex, rec.hta, rec.diabetes, rec.dyslipidemia,
        rec.obesity, rec.smoking, rec.apl, rec.cutaneous, rec.joint,
        risk_5y sf, risk_category (risk_5y sf)⟩ ∧
    ∀ prev : List PatientRecord,
      sessionLastExport predict t (prev ++ [rec]) = exportOf predict t rec := by
  constructor
  · simp [exportOf, calculateBranch, h, makeExport]
  · intro prev
    simp [sessionLastExport, List.getLast?_concat]

/-- C8 at the stub model: after two evaluations the export is the one
rebuilt from the second record. -/
theorem C8_export_fresh_witness :
    stubPredict (features rec0) = Except.ok stubSF ∧
    sessionLastExport stubPredict "2024-01-02" [rec0, rec0] =
      exportOf stubPredict "2024-01-02" rec0 :=
  ⟨rfl, (C8_export_fresh stubPredict "2024-01-02" rec0 stubSF rfl).2 [rec0]⟩

/-- C9: evaluation has no side effects: the readable state (cached model
handle and form record) comes back unchanged, and re-running the
evaluation from the returned state yields the identical outcome. -/
theorem C9_no_side_effects (s : EvalState) (t : String) :
    (evaluateStep s t).1 = s ∧
    (evaluateStep ((evaluateStep s t).1) t).2 = (evaluateStep s t).2 :=
  ⟨rfl, rfl⟩

/-- C9 at a concrete state built from the stub model and rec0. -/
theorem C9_no_side_effects_witness :
    (evaluateStep ⟨stubPredict, rec0⟩ "2024-01-03").1 = ⟨stubPredict, rec0⟩ :=
  (C9_no_side_effects ⟨stubPredict, rec0⟩ "2024-01-03").1
